import Mathlib

/-!
Verification of the tidy-utils component library.

Shallow embedding of the two components of the repository
(`src/NumericInput.tsx` and `src/Dropdown.tsx`) and proofs of the
specification's claims about them.

JavaScript numbers are modelled by `JSNum`: the `NaN` sentinel, the two
infinities, and finite values carried as exact rationals.  The IEEE-754
rounding of finite values is abstracted away (no claim here depends on
rounding or overflow); everything else — in particular the leading-prefix
`parseFloat` grammar and its `NaN` result — is modelled faithfully from
the ECMAScript semantics the code relies on.
-/

/-- A JavaScript number: `NaN`, `±Infinity`, or a finite value
(modelled as an exact rational). -/
inductive JSNum where
  | nan : JSNum
  | posInf : JSNum
  | negInf : JSNum
  | finite (q : ℚ) : JSNum
deriving DecidableEq, Repr

/-- JavaScript's `isNaN` on an (already numeric) value: true exactly on
the `NaN` sentinel. -/
def jsIsNaN : JSNum → Bool
  | JSNum.nan => true
  | _ => false

/-- Whether a `JSNum` is a finite number (used only to state claims that
distinguish the `isNaN` guard from a finiteness guard). -/
def jsIsFinite : JSNum → Bool
  | JSNum.finite _ => true
  | _ => false

/-- The ECMAScript `StrWhiteSpace` characters stripped by `parseFloat`
(ASCII part; Unicode space characters are not exercised here). -/
def strWhiteSpaceChar (c : Char) : Bool :=
  c = ' ' || c = '\t' || c = '\n' || c = '\r' || c = '\x0b' || c = '\x0c'

/-- Numeric value of a decimal digit character. -/
def digitVal (c : Char) : ℕ := c.toNat - '0'.toNat

/-- The natural number denoted by a list of decimal digit characters
(most significant first); the empty list denotes 0. -/
def digitsToNat (ds : List Char) : ℕ :=
  ds.foldl (fun acc c => 10 * acc + digitVal c) 0

/-- If `pat` is a literal prefix of `cs`, return the remainder of `cs`;
otherwise `none`.  Used to recognise the `Infinity` literal. -/
def stripLit : List Char → List Char → Option (List Char)
  | [], cs => some cs
  | _ :: _, [] => none
  | p :: ps, c :: cs => if p = c then stripLit ps cs else none

/-- An optional leading sign: returns the sign (as `1` or `-1`) and the
remaining characters. -/
def parseSign : List Char → ℤ × List Char
  | '+' :: cs => (1, cs)
  | '-' :: cs => (-1, cs)
  | cs => (1, cs)

/-- The exponent denoted by an `ExponentPart` at the head of the input,
or `0` when no complete exponent part is present (the longest-valid-prefix
rule of `parseFloat`: an incomplete `e`/`E+` is not consumed). -/
def parseExponent : List Char → ℤ
  | c :: rest =>
    if c = 'e' || c = 'E' then
      let (sgn, rest1) := parseSign rest
      let ds := rest1.takeWhile Char.isDigit
      if ds.isEmpty then 0 else sgn * (digitsToNat ds : ℤ)
    else 0
  | [] => 0

/-- Scale a rational by an integer power of ten. -/
def scalePow10 (q : ℚ) (e : ℤ) : ℚ :=
  if 0 ≤ e then q * (10 : ℚ) ^ e.toNat else q / (10 : ℚ) ^ (-e).toNat

/-- The magnitude denoted by the longest `StrUnsignedDecimalLiteral`
prefix of the input: `Sum.inl ()` for the `Infinity` literal,
`Sum.inr q` for a finite magnitude, `none` when no prefix is a valid
unsigned literal. -/
def parseUnsigned (cs : List Char) : Option (Unit ⊕ ℚ) :=
  match stripLit "Infinity".toList cs with
  | some _ => some (Sum.inl ())
  | none =>
    let ip := cs.takeWhile Char.isDigit
    let r1 := cs.dropWhile Char.isDigit
    let fp := match r1 with
      | '.' :: rest => rest.takeWhile Char.isDigit
      | _ => []
    let r2 := match r1 with
      | '.' :: rest => rest.dropWhile Char.isDigit
      | _ => r1
    if ip.isEmpty && fp.isEmpty then none
    else
      let mant : ℚ := (digitsToNat ip : ℚ) + (digitsToNat fp : ℚ) / (10 : ℚ) ^ fp.length
      some (Sum.inr (scalePow10 mant (parseExponent r2)))

/-- ECMAScript `parseFloat`: strip leading whitespace, read an optional
sign, then the longest valid unsigned decimal literal (or `Infinity`);
`NaN` when no prefix parses.  Trailing characters are ignored. -/
def parseFloat (s : String) : JSNum :=
  let cs := s.toList.dropWhile strWhiteSpaceChar
  let (sgn, cs1) := parseSign cs
  match parseUnsigned cs1 with
  | none => JSNum.nan
  | some (Sum.inl ()) => if sgn = 1 then JSNum.posInf else JSNum.negInf
  | some (Sum.inr q) => JSNum.finite ((sgn : ℚ) * q)

/-- The fractional decimal digits of `num / den` (with `num < den`),
produced by long division; `fuel` bounds the number of digits (every
value a JavaScript double can hold has a terminating expansion, so the
bound is never hit on values the code can produce). -/
def fracDigits (fuel : ℕ) (num den : ℕ) : String :=
  match fuel with
  | 0 => ""
  | fuel1 + 1 =>
    if num = 0 then ""
    else
      let num10 := num * 10
      toString (num10 / den) ++ fracDigits fuel1 (num10 % den) den

/-- JavaScript's `Number.prototype.toString` (radix 10), restricted to
the values modelled here: `NaN`/`Infinity` spellings, plain integers,
and the exact decimal expansion for non-integers. -/
def jsNumToString : JSNum → String
  | JSNum.nan => "NaN"
  | JSNum.posInf => "Infinity"
  | JSNum.negInf => "-Infinity"
  | JSNum.finite q =>
    if q.den = 1 then toString q.num
    else
      let sgn := if q < 0 then "-" else ""
      let n := q.num.natAbs
      sgn ++ toString (n / q.den) ++ "." ++ fracDigits 1100 (n % q.den) q.den

/-! NumericInput (`src/NumericInput.tsx`).

The component's view state is the single string held by `useState`
(line 28).  Observable outputs are the invocations of the caller's
`onChange` and `onBlur` callbacks; a handler's result is the new state
paired with the list of callback invocations it performs, in order. -/

/-- NumericInput's view state: the raw text of the field
(`inputValue` in the source). -/
structure NIState where
  inputValue : String
deriving DecidableEq, Repr

/-- A callback invocation observable by the caller of NumericInput. -/
inductive NICallback where
  | onChange (v : JSNum) : NICallback
  | onBlur (v : JSNum) : NICallback
deriving DecidableEq, Repr

/-- The `useState(value.toString())` initializer at line 28: the state
at first render is the string form of the `value` prop. -/
def NumericInput.init (value : JSNum) : NIState :=
  ⟨jsNumToString value⟩

/-- The `handleInputChange` handler (lines 30–38): store the typed text verbatim,
then call `onChange(parseFloat(newValue))` only when
`!isNaN(parseFloat(newValue))`. -/
def handleInputChange (newValue : String) (_st : NIState) : NIState × List NICallback :=
  ( ⟨newValue⟩,
    if jsIsNaN (parseFloat newValue) then [] else [NICallback.onChange (parseFloat newValue)] )

/-- The `handleBlur` handler (lines 40–44): when an `onBlur` callback was supplied
(`hasOnBlur`), call it with `parseFloat(inputValue)`; the state is not
touched. -/
def handleBlur (hasOnBlur : Bool) (st : NIState) : NIState × List NICallback :=
  (st, if hasOnBlur then [NICallback.onBlur (parseFloat st.inputValue)] else [])

/-- The events a mounted NumericInput can receive: a keystroke that sets
the field's text (the `onInput` DOM event), a focus loss, or a change of
the `value` prop by the parent while the component stays mounted. -/
inductive NIEvent where
  | input (s : String) : NIEvent
  | blur : NIEvent
  | propChange (v : JSNum) : NIEvent
deriving DecidableEq, Repr

/-- One step of the mounted component.  A `propChange` re-renders with a
new `value` prop: `useState`'s initializer argument is evaluated only at
the first render and the component has no effect hook synchronising the
prop into state, so the state is unchanged and no callback runs. -/
def NumericInput.step (hasOnBlur : Bool) (st : NIState) : NIEvent → NIState × List NICallback
  | NIEvent.input s => handleInputChange s st
  | NIEvent.blur => handleBlur hasOnBlur st
  | NIEvent.propChange _ => (st, [])

/-! Dropdown (`src/Dropdown.tsx`).

The component's view state is the single boolean held by `useState`
(line 111).  Handlers are modelled as the list of primitive actions they
perform, in source order: invoking the caller's `onSelect` and calling
the state setter.  Keeping the trace (rather than only the net effect)
lets the ordering claims — the callback runs to completion before the
Closed transition is committed — be stated as positions in the trace. -/

/-- A `DropdownOption` identifier: `id: string | number`. -/
inductive DropdownId where
  | str (s : String) : DropdownId
  | num (n : ℚ) : DropdownId
deriving DecidableEq, Repr

/-- A dropdown option: unique identifier, display name, and the open
bag of additional caller-defined attributes (the interface's index
signature), modelled as a parametric payload `ε`. -/
structure DropdownOption (ε : Type) where
  id : DropdownId
  name : String
  extra : ε
deriving DecidableEq, Repr

/-- A rendered fragment of markup (enough structure to state what the
menu and the button display). -/
inductive Node where
  | text (s : String) : Node
  | tag (el : String) (children : List Node) : Node

/-- A primitive action a Dropdown handler performs: invoke the caller's
`onSelect` with an option, or call the `setIsOpen` state setter. -/
inductive DDAction (ε : Type) where
  | callOnSelect (o : DropdownOption ε) : DDAction ε
  | setOpen (b : Bool) : DDAction ε
deriving DecidableEq, Repr

/-- The `handleSelect` handler (lines 115–118): `onSelect(option)` first, then
`setIsOpen(false)`, in that order. -/
def handleSelectActions {ε : Type} (o : DropdownOption ε) : List (DDAction ε) :=
  [DDAction.callOnSelect o, DDAction.setOpen false]

/-- The `toggleDropdown` handler (line 113): `setIsOpen(!isOpen)`; no callback. -/
def toggleDropdownActions {ε : Type} (isOpen : Bool) : List (DDAction ε) :=
  [DDAction.setOpen (!isOpen)]

/-- The toggle button's `onBlur` handler (line 51): `setIsOpen(false)`;
no callback. -/
def buttonBlurActions {ε : Type} : List (DDAction ε) :=
  [DDAction.setOpen false]

/-- A DOM `mousedown` handler: whether it calls `preventDefault()` on
the event, and the actions it performs. -/
structure MouseDownHandler (ε : Type) where
  preventsDefault : Bool
  actions : List (DDAction ε)
deriving DecidableEq, Repr

/-- The menu item's `onMouseDown` handler (lines 84–87):
`e.preventDefault()` then `handleSelect(option)`. -/
def menuItemMouseDown {ε : Type} (o : DropdownOption ε) : MouseDownHandler ε :=
  ⟨true, handleSelectActions o⟩

/-- The full trace of a pointer-press on a menu item while the toggle
button has focus, under the DOM's sequencing: the item's `mousedown`
handler runs first, and the press's default action (moving focus off the
button, which would run the button's blur handler) follows only when the
handler did not call `preventDefault()`. -/
def pressTrace {ε : Type} (o : DropdownOption ε) : List (DDAction ε) :=
  let handler := menuItemMouseDown o
  handler.actions ++ (if handler.preventsDefault then [] else buttonBlurActions)

/-- The new open/closed flag after running a trace: `setOpen` commits a
new flag; a callback invocation leaves the flag as it was, whatever the
callback itself returns. -/
def runOpen {ε : Type} (isOpen : Bool) : List (DDAction ε) → Bool
  | [] => isOpen
  | DDAction.callOnSelect _ :: rest => runOpen isOpen rest
  | DDAction.setOpen b :: rest => runOpen b rest

/-- The options a trace passes to the caller's `onSelect`, in order. -/
def selectCalls {ε : Type} : List (DDAction ε) → List (DropdownOption ε)
  | [] => []
  | DDAction.callOnSelect o :: rest => o :: selectCalls rest
  | DDAction.setOpen _ :: rest => selectCalls rest

/-- A mounted Dropdown: the caller-supplied option list (a prop the
component never writes to) and the `useState` open/closed flag. -/
structure DDWorld (ε : Type) where
  options : List (DropdownOption ε)
  isOpen : Bool
deriving DecidableEq, Repr

/-- The `useState(false)` initializer at line 111: the dropdown starts closed. -/
def Dropdown.initOpen : Bool := false

/-- The user interactions a mounted Dropdown can receive: activating the
toggle button, the toggle button losing focus, and a pointer-press on
the `i`-th menu item. -/
inductive DDEvent where
  | toggleClick : DDEvent
  | buttonBlur : DDEvent
  | itemPress (i : ℕ) : DDEvent
deriving DecidableEq, Repr

/-- The action trace an event triggers.  A menu item exists only while
the dropdown is open (line 129 renders the menu under `isOpen &&`) and
only for indices inside the option list, so `itemPress` is a no-op
otherwise. -/
def Dropdown.eventActions {ε : Type} (w : DDWorld ε) : DDEvent → List (DDAction ε)
  | DDEvent.toggleClick => toggleDropdownActions w.isOpen
  | DDEvent.buttonBlur => buttonBlurActions
  | DDEvent.itemPress i =>
    if h : w.isOpen = true ∧ i < w.options.length then
      pressTrace (w.options.get ⟨i, h.2⟩)
    else []

/-- One step of the mounted component on an interaction: the new world
and the options passed to `onSelect`, in order. -/
def Dropdown.step {ε : Type} (w : DDWorld ε) (e : DDEvent) :
    DDWorld ε × List (DropdownOption ε) :=
  let acts := Dropdown.eventActions w e
  (⟨w.options, runOpen w.isOpen acts⟩, selectCalls acts)

/-- What the toggle button displays (line 55):
`selectedOption ? selectedOption.name : placeholder`. -/
def DropdownButton.title {ε : Type} (selectedOption : Option (DropdownOption ε))
    (placeholder : String) : String :=
  match selectedOption with
  | some o => o.name
  | none => placeholder

/-- One rendered menu entry: the `key` attribute, the displayed content,
and the attached `mousedown` handler. -/
structure MenuItem (ε : Type) where
  key : DropdownId
  content : Node
  mouseDown : MouseDownHandler ε

/-- The `DropdownMenu` component (lines 74–93): one entry per option, in list order,
keyed by `option.id`, displaying `renderOption(option)` when a custom
renderer was supplied and `option.name` otherwise, with the intercepting
`mousedown` handler attached. -/
def DropdownMenu.render {ε : Type} (options : List (DropdownOption ε))
    (renderOption : Option (DropdownOption ε → Node)) : List (MenuItem ε) :=
  options.map fun o =>
    ⟨o.id,
     match renderOption with
     | some r => r o
     | none => Node.text o.name,
     menuItemMouseDown o⟩

/-- A concrete option (`{id: 1, name: "A"}`), used to instantiate the
universally quantified theorems below. -/
def demoA : DropdownOption Unit := ⟨DropdownId.num 1, "A", ()⟩

/-- A concrete option (`{id: 2, name: "B"}`). -/
def demoB : DropdownOption Unit := ⟨DropdownId.num 2, "B", ()⟩

/-- A mounted Dropdown over `[demoA, demoB]` in the open state. -/
def demoOpenWorld : DDWorld Unit := ⟨[demoA, demoB], true⟩

example : parseFloat "abc" = JSNum.nan := rfl

example : parseFloat "3.5x" = JSNum.finite (7 / 2) := by with_unfolding_all decide

example : parseFloat "5.2" = JSNum.finite (26 / 5) := by with_unfolding_all decide

example : parseFloat "-Infinity" = JSNum.negInf := rfl

example : parseFloat "1e-2" = JSNum.finite (1 / 100) := by with_unfolding_all decide

example : jsNumToString (JSNum.finite 5) = "5" := rfl

example : jsNumToString (JSNum.finite (26 / 5)) = "5.2" := by with_unfolding_all decide

/-- Helper: the trace of a press on the `i`-th menu item of an open
dropdown is exactly the `handleSelect` actions for the `i`-th option
(the item's `preventDefault` keeps the button-blur actions out). -/
theorem eventActions_itemPress_open {ε : Type} (w : DDWorld ε) (i : ℕ)
    (ho : w.isOpen = true) (hi : i < w.options.length) :
    Dropdown.eventActions w (DDEvent.itemPress i) =
      [DDAction.callOnSelect (w.options.get ⟨i, hi⟩), DDAction.setOpen false] := by
  have hcond : w.isOpen = true ∧ i < w.options.length := ⟨ho, hi⟩
  simp [Dropdown.eventActions, hcond, pressTrace, menuItemMouseDown, handleSelectActions]

/-- C1: a keystroke setting NumericInput's text to `s` makes the internal
text state exactly `s` (even unparsable `s`), and invokes `onChange` with
`parseFloat s` exactly once when that parse is not `NaN` and not at all
otherwise — so strings with no valid numeric prefix update the display
but never invoke `onChange`. -/
theorem numericInput_keystroke_contract (s : String) (st : NIState) :
    (handleInputChange s st).1.inputValue = s ∧
    (handleInputChange s st).2 =
      (if jsIsNaN (parseFloat s) then [] else [NICallback.onChange (parseFloat s)]) ∧
    ((handleInputChange s st).2 ≠ [] ↔ jsIsNaN (parseFloat s) = false) := by
  refine ⟨rfl, rfl, ?_⟩
  simp only [handleInputChange]
  cases h : jsIsNaN (parseFloat s) <;> simp

/-- C2: selecting the `i`-th option of an open Dropdown invokes
`onSelect` with that option synchronously and exactly once, the
invocation sits strictly before the `setIsOpen(false)` commit in the
handler's trace, and the resulting state is Closed (the trace's fold
ignores whatever the callback returns, so Closed follows regardless of
the callback's outcome). -/
theorem dropdown_select_contract {ε : Type} (w : DDWorld ε) (i : ℕ)
    (ho : w.isOpen = true) (hi : i < w.options.length) :
    Dropdown.eventActions w (DDEvent.itemPress i) =
      [DDAction.callOnSelect (w.options.get ⟨i, hi⟩), DDAction.setOpen false] ∧
    (Dropdown.step w (DDEvent.itemPress i)).2 = [w.options.get ⟨i, hi⟩] ∧
    (Dropdown.step w (DDEvent.itemPress i)).1.isOpen = false := by
  have hacts := eventActions_itemPress_open w i ho hi
  refine ⟨hacts, ?_, ?_⟩ <;>
    simp [Dropdown.step, hacts, selectCalls, runOpen]

theorem dropdown_select_contract_witness :
    (Dropdown.step demoOpenWorld (DDEvent.itemPress 1)).2 = [demoB] ∧
    (Dropdown.step demoOpenWorld (DDEvent.itemPress 1)).1.isOpen = false := by
  have h := dropdown_select_contract demoOpenWorld 1 rfl (by decide)
  exact ⟨h.2.1.trans rfl, h.2.2⟩

/-- C3: on focus loss, NumericInput invokes the blur callback exactly
once with `parseFloat` of the current internal text whenever a blur
callback was supplied (even when the parse is `NaN`), and not at all
otherwise; the handler is a total function, so no exception arises from
unparsable text. -/
theorem numericInput_blur_contract (hb : Bool) (st : NIState) :
    handleBlur hb st =
      (st, if hb then [NICallback.onBlur (parseFloat st.inputValue)] else []) ∧
    (handleBlur true st).2 = [NICallback.onBlur (parseFloat st.inputValue)] ∧
    (handleBlur false st).2 = [] := ⟨rfl, rfl, rfl⟩

/-- C4: the Dropdown state machine starts Closed; the toggle button
flips the state (Closed to Open and Open to Closed); the button losing
focus yields Closed; and neither toggling nor focus loss invokes
`onSelect`. -/
theorem dropdown_toggle_state_machine {ε : Type} (w : DDWorld ε) :
    Dropdown.initOpen = false ∧
    (Dropdown.step w DDEvent.toggleClick).1.isOpen = !w.isOpen ∧
    (Dropdown.step w DDEvent.toggleClick).2 = [] ∧
    (Dropdown.step w DDEvent.buttonBlur).1.isOpen = false ∧
    (Dropdown.step w DDEvent.buttonBlur).2 = [] := by
  refine ⟨rfl, ?_, rfl, rfl, rfl⟩
  simp [Dropdown.step, Dropdown.eventActions, toggleDropdownActions, runOpen]

/-- C5: the menu item's `mousedown` handler calls `preventDefault`, so
the pointer-press trace is exactly the selection actions with the
competing focus-loss close suppressed, and the selection callback fires
in every such interaction. -/
theorem dropdown_selection_wins_over_blur {ε : Type} (o : DropdownOption ε) :
    (menuItemMouseDown o).preventsDefault = true ∧
    pressTrace o = [DDAction.callOnSelect o, DDAction.setOpen false] ∧
    selectCalls (pressTrace o) = [o] := by
  refine ⟨rfl, ?_, ?_⟩ <;>
    simp [pressTrace, menuItemMouseDown, handleSelectActions, selectCalls]

/-- C6: the open menu renders one entry per supplied option, in the
order supplied, each keyed by the option's id and displaying the custom
renderer's output when one is supplied and the option's display name
otherwise. -/
theorem dropdownMenu_renders_all_options {ε : Type} (opts : List (DropdownOption ε))
    (ro : Option (DropdownOption ε → Node)) :
    (DropdownMenu.render opts ro).length = opts.length ∧
    ∀ i (h : i < opts.length),
      (DropdownMenu.render opts ro)[i]? =
        some ⟨(opts.get ⟨i, h⟩).id,
              (match ro with
               | some r => r (opts.get ⟨i, h⟩)
               | none => Node.text (opts.get ⟨i, h⟩).name),
              menuItemMouseDown (opts.get ⟨i, h⟩)⟩ := by
  constructor
  · simp [DropdownMenu.render]
  · intro i h
    simp [DropdownMenu.render, List.getElem?_map, List.getElem?_eq_getElem h]
    cases ro <;> rfl

theorem dropdownMenu_renders_all_options_witness :
    (DropdownMenu.render [demoA, demoB] (none : Option (DropdownOption Unit → Node))).length = 2 ∧
    (DropdownMenu.render [demoA, demoB] (none : Option (DropdownOption Unit → Node)))[1]? =
      some ⟨DropdownId.num 2, Node.text "B", menuItemMouseDown demoB⟩ := by
  have h := dropdownMenu_renders_all_options [demoA, demoB]
    (none : Option (DropdownOption Unit → Node))
  exact ⟨h.1, (h.2 1 (by decide)).trans rfl⟩

/-- C7: a null (absent) selected option is valid — the toggle button
then shows the placeholder, and a present option shows its name; and the
handlers are total functions of their inputs, returning ordinary values
even on unparsable text, so no documented input throws. -/
theorem dropdown_null_selection_is_valid {ε : Type} (p : String)
    (o : DropdownOption ε) (st : NIState) :
    DropdownButton.title (none : Option (DropdownOption ε)) p = p ∧
    DropdownButton.title (some o) p = o.name ∧
    handleInputChange "abc" st = (⟨"abc"⟩, []) ∧
    handleBlur true ⟨"abc"⟩ = (⟨"abc"⟩, [NICallback.onBlur JSNum.nan]) :=
  ⟨rfl, rfl, rfl, rfl⟩

/-- C8: no interaction ever mutates the supplied option list — the list
after any step is the very list before it, and every option handed to
`onSelect` is an element of that list, unchanged. -/
theorem dropdown_never_mutates_options {ε : Type} (w : DDWorld ε) (e : DDEvent) :
    (Dropdown.step w e).1.options = w.options ∧
    ∀ o, o ∈ (Dropdown.step w e).2 → o ∈ w.options := by
  constructor
  · rfl
  · intro o ho
    cases e with
    | toggleClick =>
      simp [Dropdown.step, Dropdown.eventActions, toggleDropdownActions, selectCalls] at ho
    | buttonBlur =>
      simp [Dropdown.step, Dropdown.eventActions, buttonBlurActions, selectCalls] at ho
    | itemPress i =>
      by_cases hc : w.isOpen = true ∧ i < w.options.length
      · have hacts := eventActions_itemPress_open w i hc.1 hc.2
        simp [Dropdown.step, hacts, selectCalls] at ho
        rw [ho]
        exact List.getElem_mem _
      · simp [Dropdown.step, Dropdown.eventActions, hc, selectCalls] at ho

theorem dropdown_never_mutates_options_witness :
    (Dropdown.step demoOpenWorld (DDEvent.itemPress 0)).1.options = demoOpenWorld.options ∧
    demoA ∈ demoOpenWorld.options := by
  have h := dropdown_never_mutates_options demoOpenWorld (DDEvent.itemPress 0)
  exact ⟨h.1, h.2 demoA (by decide)⟩

/-- C9: the internal text is seeded from the string form of the `value`
prop at the first render only; a later `value` prop change while mounted
leaves the displayed text unchanged and invokes no callback, and blur
does not alter the text either — only keystrokes do. -/
theorem numericInput_value_prop_only_seeds_init (v : JSNum) (hb : Bool)
    (st : NIState) (v2 : JSNum) :
    (NumericInput.init v).inputValue = jsNumToString v ∧
    NumericInput.step hb st (NIEvent.propChange v2) = (st, []) ∧
    (NumericInput.step hb st NIEvent.blur).1 = st := ⟨rfl, rfl, rfl⟩

/-- C10: the `onChange` guard is a not-`NaN` check, not a finiteness
check — typing `"Infinity"` parses to the non-finite positive infinity
and still invokes `onChange` with it; in general the callback list is
empty exactly when the parse is `NaN`. -/
theorem numericInput_guard_is_nan_not_finiteness (st : NIState) (s : String) :
    parseFloat "Infinity" = JSNum.posInf ∧
    jsIsFinite JSNum.posInf = false ∧
    (handleInputChange "Infinity" st).2 = [NICallback.onChange JSNum.posInf] ∧
    ((handleInputChange s st).2 = [] ↔ jsIsNaN (parseFloat s) = true) := by
  refine ⟨rfl, rfl, rfl, ?_⟩
  simp only [handleInputChange]
  cases h : jsIsNaN (parseFloat s) <;> simp
